import Mathlib

/-!
Verification of the `ngx_http_ericsten_module` nginx thread-pool module
(`src/ngx_http_ericsten_module.c`) against its natural-language design
specification.

The module is shallowly embedded: the per-request context, the rewrite
handler (dispatcher), the thread-pool task body, the completion handler
and the variable getter become pure Lean functions over explicit state.
External nginx services (context storage, thread-pool lookup, allocation,
task posting, the random source) are modelled as explicit inputs, with
Booleans standing for the success/failure of each fallible call.
-/

namespace Ericsten

/-- nginx return code `NGX_OK`. -/
def NGX_OK : Int := 0

/-- nginx return code `NGX_ERROR`. -/
def NGX_ERROR : Int := -1

/-- nginx return code `NGX_AGAIN`. -/
def NGX_AGAIN : Int := -2

/-- nginx return code `NGX_DECLINED`. -/
def NGX_DECLINED : Int := -5

/-- nginx HTTP status `NGX_HTTP_INTERNAL_SERVER_ERROR`. -/
def NGX_HTTP_INTERNAL_SERVER_ERROR : Int := 500

/-- Modulus of `ngx_uint_t` (64-bit `uintptr_t` on the platforms the module
targets); `r->main->blocked` is of this type, so its increment and decrement
wrap at this modulus. -/
def ngx_uint_modulus : Nat := 2 ^ 64

/-- `ERICSTEN_STATE` from the source: the per-request task state machine
`ES_TASK_INIT = 0`, `ES_TASK_PROCESSING`, `ES_TASK_DONE`. -/
inductive ERICSTEN_STATE where
  | ES_TASK_INIT
  | ES_TASK_PROCESSING
  | ES_TASK_DONE
  deriving DecidableEq, Repr

open ERICSTEN_STATE

/-- `ngx_http_ericsten_ctx_t`: the per-request context ("out-params" of the
thread-pool task).  `msSleep` is the `int` field holding the milliseconds the
task slept; every value ever stored in it is non-negative, so it is carried as
a `Nat`.  The `r` back-pointer is not part of the value model (the embedding
passes the request state explicitly). -/
structure EricstenCtx where
  state : ERICSTEN_STATE
  msSleep : Nat
  deriving DecidableEq, Repr

/-- `ngx_http_ericsten_task_ctx_t`: the per-task context ("in-params" of the
thread-pool task): a reference to the request context and the random value
drawn by the handler.  `ngx_random()` (`random()`) returns a non-negative
long, so the value is carried as a `Nat`. -/
structure EricstenTaskCtx where
  ericsten_ctx : EricstenCtx
  random_value : Nat
  deriving DecidableEq, Repr

/-- The slice of `ngx_http_request_t` the module touches: the module context
slot (`ngx_http_get_module_ctx` / `ngx_http_set_ctx`), the outstanding-async
counter `r->main->blocked` (an `ngx_uint_t`), and the flag `r->aio`. -/
structure Request where
  ctx : Option EricstenCtx
  blocked : Nat
  aio : Bool
  deriving DecidableEq, Repr

/-- Outcomes of the external nginx calls the handler makes, one Boolean per
fallible call, plus the value `ngx_random()` returns. -/
structure HandlerEnv where
  ctx_alloc_ok : Bool
  tp_found : Bool
  task_alloc_ok : Bool
  post_ok : Bool
  random_value : Nat
  deriving DecidableEq, Repr

/-- Result of one run of the rewrite handler: the return code, the request
state after the call, and the task context posted to the thread pool (`none`
when no task was successfully posted). -/
structure HandlerResult where
  rc : Int
  req : Request
  posted : Option EricstenTaskCtx
  deriving DecidableEq, Repr

/-- `ngx_http_ericsten_handler` (src lines 258-357).  If a module context
already exists the handler falls through to `return NGX_DECLINED`.  Otherwise
it allocates a context with `ngx_pcalloc` (failure: 500), stores it with
`ngx_http_set_ctx`, initializes `state = ES_TASK_INIT`, `msSleep = 0`, looks
up the thread pool (failure: 500), allocates a task (failure: 500), fills the
task context with the context pointer and `ngx_random()`, posts the task
(failure: 500), then increments `r->main->blocked`, sets `r->aio = 1` and
returns `NGX_AGAIN`. -/
def ngx_http_ericsten_handler (env : HandlerEnv) (r : Request) : HandlerResult :=
  match r.ctx with
  | some _ =>
      { rc := NGX_DECLINED, req := r, posted := none }
  | none =>
      if env.ctx_alloc_ok = false then
        { rc := NGX_HTTP_INTERNAL_SERVER_ERROR, req := r, posted := none }
      else
        let ctx : EricstenCtx := { state := ES_TASK_INIT, msSleep := 0 }
        let r1 : Request := { r with ctx := some ctx }
        if env.tp_found = false then
          { rc := NGX_HTTP_INTERNAL_SERVER_ERROR, req := r1, posted := none }
        else if env.task_alloc_ok = false then
          { rc := NGX_HTTP_INTERNAL_SERVER_ERROR, req := r1, posted := none }
        else
          let task_ctx : EricstenTaskCtx :=
            { ericsten_ctx := ctx, random_value := env.random_value }
          if env.post_ok = false then
            { rc := NGX_HTTP_INTERNAL_SERVER_ERROR, req := r1, posted := none }
          else
            { rc := NGX_AGAIN,
              req := { r1 with
                        blocked := (r1.blocked + 1) % ngx_uint_modulus,
                        aio := true },
              posted := some task_ctx }

/-- The sleep duration computed by the task body (src line 378):
`msec_sleep = ((random_value % 9) + 1) * 100`. -/
def dostuff_msec_sleep (random_value : Nat) : Nat :=
  ((random_value % 9) + 1) * 100

/-- `ngx_http_ericsten_dostuff` (src lines 363-391), as the trace of values
the request context passes through, one entry per mutation of `*ctx`, in
program order: first `ctx->state = ES_TASK_PROCESSING`, then (after the
sleep) `ctx->msSleep = msec_sleep`, finally `ctx->state = ES_TASK_DONE`. -/
def ngx_http_ericsten_dostuff (task_ctx : EricstenTaskCtx) : List EricstenCtx :=
  let ctx := task_ctx.ericsten_ctx
  let c1 : EricstenCtx := { ctx with state := ES_TASK_PROCESSING }
  let msec_sleep := dostuff_msec_sleep task_ctx.random_value
  let c2 : EricstenCtx := { c1 with msSleep := msec_sleep }
  let c3 : EricstenCtx := { c2 with state := ES_TASK_DONE }
  [c1, c2, c3]

/-- The context value as the handler leaves it on a fresh request:
`state = ES_TASK_INIT`, `msSleep = 0` (src lines 292-310). -/
def init_ctx : EricstenCtx := { state := ES_TASK_INIT, msSleep := 0 }

/-- The whole life of one request context, one entry per value it holds:
the value the dispatcher creates, then each value written by the task body. -/
def lifecycle_trace (random_value : Nat) : List EricstenCtx :=
  init_ctx ::
    ngx_http_ericsten_dostuff { ericsten_ctx := init_ctx, random_value := random_value }

/-- `ngx_http_ericsten_dostuff_completion_handler` (src lines 393-418): runs
on the event loop, decrements `r->main->blocked` (an `ngx_uint_t`, so the
decrement wraps), clears `r->aio`, then calls `ngx_http_handler(r)` to
re-enter the pipeline. -/
def ngx_http_ericsten_dostuff_completion_handler (r : Request) : Request :=
  { r with
      blocked := (r.blocked + (ngx_uint_modulus - 1)) % ngx_uint_modulus,
      aio := false }

/-- `ES_VAR_SLEEP` from `ERICSTEN_VAR_INDEX`. -/
def ES_VAR_SLEEP : Nat := 0

/-- `ES_VAR_BANANA` from `ERICSTEN_VAR_INDEX`. -/
def ES_VAR_BANANA : Nat := 1

/-- The decimal rendering loop of nginx's `ngx_sprintf_num` (the `%uA`
conversion): digits are produced by repeated division by 10, emitting at
least one digit. -/
def ngx_sprintf_num (n : Nat) : List Char :=
  if n < 10 then
    [Char.ofNat (n + 48)]
  else
    ngx_sprintf_num (n / 10) ++ [Char.ofNat (n % 10 + 48)]
decreasing_by
  simp only [not_lt] at *
  omega

/-- Reading a digit string back as a number: the left fold
`a * 10 + digit` over the characters. -/
def decodeDecimal (cs : List Char) : Nat :=
  cs.foldl (fun a c => a * 10 + (c.toNat - 48)) 0

/-- The `ngx_http_variable_value_t` fields the getter writes. -/
structure VarValue where
  valid : Bool
  no_cacheable : Bool
  not_found : Bool
  len : Nat
  data : Option (List Char)
  deriving DecidableEq, Repr

/-- `ngx_http_ericsten_get_variable` (src lines 130-202).  With no module
context it jumps to `Finished` with `found = FALSE` (value marked invalid and
not found).  With a context it allocates a buffer (`ngx_pnalloc` failure
returns `NGX_ERROR`, modelled as `none`), then switches on `data`:
`ES_VAR_SLEEP` renders `ctx->msSleep` in decimal, `ES_VAR_BANANA` renders
"banana", and every other index renders "0"; all three branches set
`found = TRUE`, so the value is marked valid, non-cacheable and found.
The state field of the context is never consulted. -/
def ngx_http_ericsten_get_variable (ctx? : Option EricstenCtx)
    (alloc_ok : Bool) (data : Nat) : Option VarValue :=
  match ctx? with
  | none =>
      some { valid := false, no_cacheable := true, not_found := true,
             len := 0, data := none }
  | some ctx =>
      if alloc_ok = false then
        none
      else
        let cs : List Char :=
          if data = ES_VAR_SLEEP then
            ngx_sprintf_num ctx.msSleep
          else if data = ES_VAR_BANANA then
            ['b', 'a', 'n', 'a', 'n', 'a']
          else
            ngx_sprintf_num 0
        some { valid := true, no_cacheable := true, not_found := false,
               len := cs.length, data := some cs }

/-- Abbreviation: a `HandlerEnv` from its five components. -/
def mkEnv (ca tp ta po : Bool) (rv : Nat) : HandlerEnv :=
  { ctx_alloc_ok := ca, tp_found := tp, task_alloc_ok := ta,
    post_ok := po, random_value := rv }

/-- Abbreviation: a `Request` from its three components. -/
def mkReq (c : Option EricstenCtx) (b : Nat) (ao : Bool) : Request :=
  { ctx := c, blocked := b, aio := ao }

/-! ## Helper lemmas about the decimal rendering -/

theorem char_toNat_digit (d : Nat) (h : d < 10) :
    (Char.ofNat (d + 48)).toNat = d + 48 := by
  interval_cases d <;> decide

theorem char_isDigit_digit (d : Nat) (h : d < 10) :
    (Char.ofNat (d + 48)).isDigit = true := by
  interval_cases d <;> decide

theorem foldl_decode_ngx_sprintf_num (n : Nat) : ∀ a : Nat,
    (ngx_sprintf_num n).foldl (fun a c => a * 10 + (c.toNat - 48)) a =
      a * 10 ^ (ngx_sprintf_num n).length + n := by
  induction n using Nat.strong_induction_on with
  | _ n ih =>
    intro a
    unfold ngx_sprintf_num
    by_cases h : n < 10
    · simp [h, char_toNat_digit n h]
    · rw [if_neg h, List.foldl_append, ih (n / 10) (by omega)]
      simp only [List.foldl_cons, List.foldl_nil, List.length_append,
        List.length_singleton, char_toNat_digit (n % 10) (by omega)]
      have hmod : n % 10 + 48 - 48 = n % 10 := by omega
      rw [hmod, pow_succ]
      calc (a * 10 ^ (ngx_sprintf_num (n / 10)).length + n / 10) * 10 + n % 10
          = a * (10 ^ (ngx_sprintf_num (n / 10)).length * 10) +
              (10 * (n / 10) + n % 10) := by ring
        _ = a * (10 ^ (ngx_sprintf_num (n / 10)).length * 10) + n := by
              rw [Nat.div_add_mod]

theorem decode_ngx_sprintf_num (n : Nat) :
    decodeDecimal (ngx_sprintf_num n) = n := by
  have h := foldl_decode_ngx_sprintf_num n 0
  simpa [decodeDecimal] using h

theorem ngx_sprintf_num_digits (n : Nat) :
    (ngx_sprintf_num n).all Char.isDigit = true := by
  induction n using Nat.strong_induction_on with
  | _ n ih =>
    unfold ngx_sprintf_num
    by_cases h : n < 10
    · simp [h, char_isDigit_digit n h]
    · rw [if_neg h]
      simp [List.all_append, ih (n / 10) (by omega),
        char_isDigit_digit (n % 10) (by omega)]

/-! ## Claims -/

/-- Claim C1: a request entering the handler with no module context gets a
context in state `INIT`, a task carrying the freshly drawn random value is
posted, `r->main->blocked` is incremented, `r->aio` is set, and the handler
returns `NGX_AGAIN`; a request entering with an existing `DONE` context gets
`NGX_DECLINED` with no new task posted and the request untouched. -/
theorem handler_dispatch_and_resume (env : HandlerEnv)
    (rv b b2 ms : Nat) (ao ao2 : Bool) :
    (ngx_http_ericsten_handler (mkEnv true true true true rv) (mkReq none b ao) =
      { rc := NGX_AGAIN,
        req := mkReq (some init_ctx) ((b + 1) % ngx_uint_modulus) true,
        posted := some { ericsten_ctx := init_ctx, random_value := rv } }) ∧
    (ngx_http_ericsten_handler env
        (mkReq (some { state := ES_TASK_DONE, msSleep := ms }) b2 ao2) =
      { rc := NGX_DECLINED,
        req := mkReq (some { state := ES_TASK_DONE, msSleep := ms }) b2 ao2,
        posted := none }) :=
  ⟨rfl, rfl⟩

/-- Claim C2: for every random input value, the sleep duration computed by
the task body lies in the closed interval from 100 ms to 1000 ms and is a
multiple of 100 ms.  (The value actually attained is always at most 900 ms,
since `random_value % 9` is at most 8.) -/
theorem dostuff_sleep_range (rv : Nat) :
    100 ≤ dostuff_msec_sleep rv ∧ dostuff_msec_sleep rv ≤ 1000 ∧
      dostuff_msec_sleep rv % 100 = 0 := by
  unfold dostuff_msec_sleep
  omega

/-- Claim C3: a successful dispatch increments `r->main->blocked` by exactly
one and sets `r->aio`; the completion handler then decrements it by exactly
one, restoring the original count, and clears `r->aio`. -/
theorem blocked_inc_dec (rv b : Nat) (ao : Bool)
    (h : b + 1 < ngx_uint_modulus) :
    (ngx_http_ericsten_handler (mkEnv true true true true rv)
        (mkReq none b ao)).req.blocked = b + 1 ∧
    (ngx_http_ericsten_handler (mkEnv true true true true rv)
        (mkReq none b ao)).req.aio = true ∧
    (ngx_http_ericsten_dostuff_completion_handler
        (ngx_http_ericsten_handler (mkEnv true true true true rv)
          (mkReq none b ao)).req).blocked = b ∧
    (ngx_http_ericsten_dostuff_completion_handler
        (ngx_http_ericsten_handler (mkEnv true true true true rv)
          (mkReq none b ao)).req).aio = false := by
  simp only [ngx_http_ericsten_handler, ngx_http_ericsten_dostuff_completion_handler,
    ngx_uint_modulus, mkEnv, mkReq] at *
  norm_num
  omega

/-- Claim C3 witness: at `blocked = 0`, the dispatch raises the counter to 1
and the completion handler brings it back to 0. -/
theorem blocked_inc_dec_witness :
    0 + 1 < ngx_uint_modulus ∧
    ((ngx_http_ericsten_handler (mkEnv true true true true 7)
        (mkReq none 0 false)).req.blocked = 0 + 1 ∧
     (ngx_http_ericsten_handler (mkEnv true true true true 7)
        (mkReq none 0 false)).req.aio = true ∧
     (ngx_http_ericsten_dostuff_completion_handler
        (ngx_http_ericsten_handler (mkEnv true true true true 7)
          (mkReq none 0 false)).req).blocked = 0 ∧
     (ngx_http_ericsten_dostuff_completion_handler
        (ngx_http_ericsten_handler (mkEnv true true true true 7)
          (mkReq none 0 false)).req).aio = false) :=
  ⟨by norm_num [ngx_uint_modulus],
   blocked_inc_dec 7 0 false (by norm_num [ngx_uint_modulus])⟩

/-- Claim C5: on first entry, each of the three failure conditions — thread
pool not found, task allocation failure, task post rejection — makes the
handler return 500 at once, with no task posted, the counter and `aio` flag
untouched, and the stored context still `INIT` with `msSleep = 0` (the work
is never run synchronously). -/
theorem handler_failure_paths (rv b : Nat) (ao ta po : Bool) :
    (ngx_http_ericsten_handler (mkEnv true false ta po rv) (mkReq none b ao) =
      { rc := NGX_HTTP_INTERNAL_SERVER_ERROR,
        req := mkReq (some init_ctx) b ao, posted := none }) ∧
    (ngx_http_ericsten_handler (mkEnv true true false po rv) (mkReq none b ao) =
      { rc := NGX_HTTP_INTERNAL_SERVER_ERROR,
        req := mkReq (some init_ctx) b ao, posted := none }) ∧
    (ngx_http_ericsten_handler (mkEnv true true true false rv) (mkReq none b ao) =
      { rc := NGX_HTTP_INTERNAL_SERVER_ERROR,
        req := mkReq (some init_ctx) b ao, posted := none }) :=
  ⟨rfl, rfl, rfl⟩

/-- Claim C10: when the handler fails after creating the context (thread-pool
lookup, task allocation, or task post), the context has already been stored
on the request, in state `INIT` with `msSleep = 0`, and stays there; any
later re-entry of the handler for that request therefore finds the context
and returns `NGX_DECLINED` without posting a task, whatever the environment
then looks like. -/
theorem ctx_persists_after_failed_dispatch (env : HandlerEnv)
    (rv b : Nat) (ao ta po : Bool) :
    ((ngx_http_ericsten_handler (mkEnv true false ta po rv)
        (mkReq none b ao)).req.ctx = some init_ctx) ∧
    ((ngx_http_ericsten_handler (mkEnv true true false po rv)
        (mkReq none b ao)).req.ctx = some init_ctx) ∧
    ((ngx_http_ericsten_handler (mkEnv true true true false rv)
        (mkReq none b ao)).req.ctx = some init_ctx) ∧
    init_ctx.state = ES_TASK_INIT ∧ init_ctx.msSleep = 0 ∧
    (ngx_http_ericsten_handler env (mkReq (some init_ctx) b ao) =
      { rc := NGX_DECLINED,
        req := mkReq (some init_ctx) b ao,
        posted := none }) :=
  ⟨rfl, rfl, rfl, rfl, rfl, rfl⟩

/-- Claim C4: the context passes through exactly the states `INIT`,
`PROCESSING`, `DONE`, in that order, with no skip, repeat or back
transition; the dispatcher leaves the context in `INIT` (it does not
perform the `PROCESSING` transition), the task body's very first action is
the transition to `PROCESSING`, and its last action is the transition to
`DONE`. -/
theorem state_sequence (rv b : Nat) (ao : Bool) :
    ((lifecycle_trace rv).map EricstenCtx.state).destutter (· ≠ ·) =
        [ES_TASK_INIT, ES_TASK_PROCESSING, ES_TASK_DONE] ∧
    ((lifecycle_trace rv).map EricstenCtx.state =
        [ES_TASK_INIT, ES_TASK_PROCESSING, ES_TASK_PROCESSING, ES_TASK_DONE]) ∧
    ((ngx_http_ericsten_handler (mkEnv true true true true rv)
        (mkReq none b ao)).req.ctx = some init_ctx) ∧
    ((ngx_http_ericsten_dostuff
        { ericsten_ctx := init_ctx, random_value := rv }).head? =
      some { init_ctx with state := ES_TASK_PROCESSING }) ∧
    (((ngx_http_ericsten_dostuff
        { ericsten_ctx := init_ctx, random_value := rv }).getLast?).map
      EricstenCtx.state = some ES_TASK_DONE) := by
  refine ⟨?_, rfl, rfl, rfl, rfl⟩
  have hstate : (lifecycle_trace rv).map EricstenCtx.state =
      [ES_TASK_INIT, ES_TASK_PROCESSING, ES_TASK_PROCESSING, ES_TASK_DONE] := rfl
  rw [hstate]
  decide

/-- Claim C7 counterexample: already with random value 0, the lifecycle of
the context contains a point (just after the task body wrote `msSleep`,
just before it wrote `state = ES_TASK_DONE`) where the state is not `DONE`
yet `msSleep` is 100, not 0.  So `msSleep` is not zero at all points before
the state becomes `DONE`. -/
theorem mssleep_zero_before_done_counterexample :
    ¬ (∀ c ∈ lifecycle_trace 0, c.state ≠ ES_TASK_DONE → c.msSleep = 0) := by
  decide

/-- Claim C7 amended: `msSleep` is zero at context creation and still zero
when the task body starts; it is written exactly once, by the task body,
immediately before the transition to `DONE` — so at the single point
between that write and the `DONE` transition the state is still
`PROCESSING` while `msSleep` already holds the (nonzero) result. -/
theorem mssleep_written_once (rv : Nat) :
    (lifecycle_trace rv).map EricstenCtx.msSleep =
        [0, 0, dostuff_msec_sleep rv, dostuff_msec_sleep rv] ∧
    (lifecycle_trace rv).map EricstenCtx.state =
        [ES_TASK_INIT, ES_TASK_PROCESSING, ES_TASK_PROCESSING, ES_TASK_DONE] ∧
    dostuff_msec_sleep rv ≠ 0 := by
  refine ⟨rfl, rfl, ?_⟩
  unfold dostuff_msec_sleep
  omega

/-- Rendering 0 through the `ngx_sprintf_num` loop yields the single
character "0". -/
theorem ngx_sprintf_num_zero : ngx_sprintf_num 0 = ['0'] := by
  unfold ngx_sprintf_num
  decide

/-- Claim C6 counterexample: with a module context present in state `INIT`
(not `DONE`), looking up the sleep variable already reports the value as
found and valid (rendering the initial `msSleep = 0` as "0") — the getter
never consults the state, so values are not "not found until DONE". -/
theorem getvar_found_in_init_state_counterexample :
    ngx_http_ericsten_get_variable
        (some { state := ES_TASK_INIT, msSleep := 0 }) true ES_VAR_SLEEP =
      some { valid := true, no_cacheable := true, not_found := false,
             len := 1, data := some ['0'] } := by
  simp [ngx_http_ericsten_get_variable, ES_VAR_SLEEP, ngx_sprintf_num_zero]

/-- Claim C6 amended: the getter reports the module's variables as not
found exactly when no module context exists; as soon as a context exists —
in any state, `INIT` and `PROCESSING` included — every lookup is reported
found, valid and non-cacheable. -/
theorem getvar_found_iff_ctx_present (d ms : Nat) (st : ERICSTEN_STATE) :
    (ngx_http_ericsten_get_variable none true d =
      some { valid := false, no_cacheable := true, not_found := true,
             len := 0, data := none }) ∧
    ((ngx_http_ericsten_get_variable
        (some { state := st, msSleep := ms }) true d).map
      (fun v => (v.valid, v.no_cacheable, v.not_found)) =
        some (true, true, false)) :=
  ⟨rfl, rfl⟩

/-- Claim C8: once the context is in state `DONE` with `msSleep = m`, the
sleep variable renders exactly the decimal string of `m` (all characters
are digits and reading the string back as a decimal number gives `m`),
marked valid, non-cacheable and found. -/
theorem getvar_sleep_decimal_after_done (m : Nat) :
    (ngx_http_ericsten_get_variable
        (some { state := ES_TASK_DONE, msSleep := m }) true ES_VAR_SLEEP =
      some { valid := true, no_cacheable := true, not_found := false,
             len := (ngx_sprintf_num m).length,
             data := some (ngx_sprintf_num m) }) ∧
    decodeDecimal (ngx_sprintf_num m) = m ∧
    (ngx_sprintf_num m).all Char.isDigit = true :=
  ⟨rfl, decode_ngx_sprintf_num m, ngx_sprintf_num_digits m⟩

/-- Claim C9: for any variable index other than `ES_VAR_SLEEP` and
`ES_VAR_BANANA`, when a module context exists the getter's default branch
returns the string "0" and marks the value valid and found, instead of
signaling not found. -/
theorem getvar_default_returns_zero (d ms : Nat) (st : ERICSTEN_STATE)
    (h0 : d ≠ ES_VAR_SLEEP) (h1 : d ≠ ES_VAR_BANANA) :
    ngx_http_ericsten_get_variable
        (some { state := st, msSleep := ms }) true d =
      some { valid := true, no_cacheable := true, not_found := false,
             len := 1, data := some ['0'] } := by
  simp [ngx_http_ericsten_get_variable, h0, h1, ngx_sprintf_num_zero]

/-- Claim C9 witness: index 2 is neither defined variable, and with a
context in state `PROCESSING` the lookup returns the found, valid
string "0". -/
theorem getvar_default_returns_zero_witness :
    (2 : Nat) ≠ ES_VAR_SLEEP ∧ (2 : Nat) ≠ ES_VAR_BANANA ∧
    ngx_http_ericsten_get_variable
        (some { state := ES_TASK_PROCESSING, msSleep := 0 }) true 2 =
      some { valid := true, no_cacheable := true, not_found := false,
             len := 1, data := some ['0'] } :=
  ⟨by decide, by decide,
   getvar_default_returns_zero 2 0 ES_TASK_PROCESSING (by decide) (by decide)⟩

end Ericsten
